import Mathlib

/-!
Verification of the gone 6502 emulator core.

This file shallowly embeds the Go sources of the repository:
  - mem/bus.go            (Bus, FakeRam, Read, Write)
  - cpu/cpu.go rev 2      (Cpu state, decode, fetch, tick, nmi, irq, reset)
  - cpu/instructions.go   (the 56 instruction implementations)
  - the opcode table      (the Opcodes map)

Machine bytes are Nat values reduced mod 256, machine words Nat values
reduced mod 65536, exactly where the Go uint8/uint16 arithmetic wraps.
Go methods mutating the receiver in place become functions Cpu to Cpu.
-/

namespace Gone

/-- Wrapping byte subtraction: the Go expression a - b on uint8 operands. -/
def sub8 (a b : Nat) : Nat := (a % 256 + 256 - b % 256) % 256

/-- Modelled from the spec: the function mask.Word used by the source is not
among the provided files. Per the spec (section 4.1, little-endian words,
and the decode comparisons uint16(page) shifted left by 8), it concatenates
a high byte (page) and a low byte (col) into a 16-bit word. -/
def word (page col : Nat) : Nat := ((page % 256) <<< 8) ||| (col % 256)

/-- The contents of the 64 KiB FakeRam array of mem/bus.go, as a function
from address to byte value. -/
def Bus := Nat → Nat

/-- Bus.Read from mem/bus.go: returns the byte stored at addr. The readonly
argument is ignored by the source. -/
def Bus.read (b : Bus) (addr : Nat) (_readonly : Bool) : Nat := b (addr % 65536)

/-- The effect of the body of Bus.Write from mem/bus.go on its receiver:
the assignment b.FakeRam[addr] = data. -/
def Bus.writeBody (b : Bus) (addr data : Nat) : Bus :=
  fun a => if a = addr % 65536 then data % 256 else b a

/-- The caller-visible effect of Bus.Write from mem/bus.go. The method is
declared with a value receiver (func (b Bus) Write), so Go copies the whole
Bus struct, including the 64 KiB FakeRam array, into b; the assignment in
the body mutates that copy, which is discarded when the method returns.
The Bus seen by the caller is therefore unchanged. -/
def Bus.write (b : Bus) (_addr _data : Nat) : Bus := b

/-- The status flags of the Cpu struct (cpu.go rev 2). -/
structure Flags where
  negative : Bool
  overflow : Bool
  unused : Bool
  disableInterrupt : Bool
  zero : Bool
  carry : Bool
  b : Bool
  decimal : Bool

/-- The Cpu struct of cpu.go rev 2, with the memory reached through its Bus
inlined as the ram field. Cpu.Write forwards to the Bus collaborator; at the
CPU layer we model the bus contract of the spec (section 6: total write,
read returns the last value written), so ram is updated in place. The
deviation of the concrete Bus implementation from that contract is treated
separately through Bus.write above. -/
structure Cpu where
  ram : Nat → Nat
  flags : Flags
  accumulator : Nat
  x : Nat
  y : Nat
  stack : Nat
  programCounter : Nat
  m : Nat
  absAddress : Nat
  pageCrossed : Bool
  cycles : Nat

/-- Cpu.Read: one byte from the Bus at addr. -/
def Cpu.read (c : Cpu) (addr : Nat) : Nat := c.ram (addr % 65536)

/-- Cpu.Write: one byte to the Bus at addr (bus contract semantics). -/
def Cpu.write (c : Cpu) (addr data : Nat) : Cpu :=
  { c with ram := fun a => if a = addr % 65536 then data % 256 else c.ram a }

/-- The setNZ helper of instructions.go: Zero from b == 0, Negative from
bit 7 of b. -/
def Cpu.setNZ (c : Cpu) (b : Nat) : Cpu :=
  { c with flags := { c.flags with zero := b == 0, negative := (b &&& 0x80) != 0 } }

/-- The flagsByte helper of instructions.go: packs the flags into one byte
in the order C, Z, I, D, B, U, V, N from bit 0 to bit 7. -/
def Cpu.flagsByte (c : Cpu) : Nat :=
  (if c.flags.carry then 1 else 0) +
  (if c.flags.zero then 2 else 0) +
  (if c.flags.disableInterrupt then 4 else 0) +
  (if c.flags.decimal then 8 else 0) +
  (if c.flags.b then 16 else 0) +
  (if c.flags.unused then 32 else 0) +
  (if c.flags.overflow then 64 else 0) +
  (if c.flags.negative then 128 else 0)

/-- The branch helper of instructions.go: when cond holds, one extra cycle,
PC moves to AbsAddress, and one further cycle when PageCrossed was set
(which also clears PageCrossed). -/
def Cpu.branch (c : Cpu) (cond : Bool) : Cpu :=
  if cond then
    let c1 := { c with cycles := (c.cycles + 1) % 256, programCounter := c.absAddress }
    if c1.pageCrossed then
      { c1 with cycles := (c1.cycles + 1) % 256, pageCrossed := false }
    else c1
  else c

/-- The nmi handler of cpu.go rev 2: push PC high then low, force B clear,
Unused and DisableInterrupt set, push the packed flags, load PC from the
vector at 0xFFFA/0xFFFB, set Cycles to 8. -/
def Cpu.nmi (c : Cpu) : Cpu :=
  let c1 := c.write (0x0100 ||| c.stack) (c.programCounter >>> 8)
  let c2 := { c1 with stack := sub8 c1.stack 1 }
  let c3 := c2.write (0x0100 ||| c2.stack) c2.programCounter
  let c4 := { c3 with stack := sub8 c3.stack 1 }
  let c5 := { c4 with flags := { c4.flags with b := false, unused := true, disableInterrupt := true } }
  let c6 := c5.write (0x0100 ||| c5.stack) c5.flagsByte
  let c7 := { c6 with stack := sub8 c6.stack 1 }
  let c8 := { c7 with absAddress := 0xfffa }
  let col := c8.read c8.absAddress
  let page := c8.read (c8.absAddress + 1)
  { c8 with programCounter := word page col, cycles := 8 }

/-- The irq handler of cpu.go rev 2: ignored when DisableInterrupt is set,
otherwise like nmi but through the vector at 0xFFFE/0xFFFF with 7 cycles. -/
def Cpu.irq (c : Cpu) : Cpu :=
  if c.flags.disableInterrupt then c
  else
    let c1 := c.write (0x0100 ||| c.stack) (c.programCounter >>> 8)
    let c2 := { c1 with stack := sub8 c1.stack 1 }
    let c3 := c2.write (0x0100 ||| c2.stack) c2.programCounter
    let c4 := { c3 with stack := sub8 c3.stack 1 }
    let c5 := { c4 with flags := { c4.flags with b := false, unused := true, disableInterrupt := true } }
    let c6 := c5.write (0x0100 ||| c5.stack) c5.flagsByte
    let c7 := { c6 with stack := sub8 c6.stack 1 }
    let c8 := { c7 with absAddress := 0xfffe }
    let col := c8.read c8.absAddress
    let page := c8.read (c8.absAddress + 1)
    { c8 with programCounter := word page col, cycles := 7 }

/-- The reset handler of cpu.go rev 2: zero A, X, Y, S to 0xFD, every flag
cleared except Unused, PC loaded from the vector at 0xFFFC/0xFFFD, M and
AbsAddress zeroed, Cycles set to 8. -/
def Cpu.reset (c : Cpu) : Cpu :=
  let c1 := { c with
              accumulator := 0, x := 0, y := 0, stack := 0xfd,
              flags := { negative := false, overflow := false, unused := true,
                         disableInterrupt := false, zero := false, carry := false,
                         b := false, decimal := false } }
  let c2 := { c1 with absAddress := 0xfffc }
  let col := c2.read c2.absAddress
  let page := c2.read (c2.absAddress + 1)
  { c2 with programCounter := word page col, m := 0, absAddress := 0, cycles := 8 }

/-- ADC from instructions.go. The source computes sum = A + M with wrapping,
sets (never clears) Carry when the sum wrapped, assigns A = sum, then adds 1
to A when Carry is set, runs setNZ, and derives Overflow from the final A,
M and sum. The byte return value of the Go function (always 0, unused by
tick) is omitted here and in all following instructions. -/
def Cpu.ADC (c : Cpu) : Cpu :=
  let sum := (c.accumulator + c.m) % 256
  let carry := if sum < c.accumulator then true else c.flags.carry
  let acc := if carry then (sum + 1) % 256 else sum
  let c1 := { c with accumulator := acc, flags := { c.flags with carry := carry } }
  let c2 := c1.setNZ acc
  { c2 with flags := { c2.flags with
      overflow := ((acc &&& 0x80) == (c.m &&& 0x80)) && ((acc &&& 0x80) != (sum &&& 0x80)) } }

/-- AND from instructions.go. -/
def Cpu.AND (c : Cpu) : Cpu :=
  let c1 := { c with accumulator := c.accumulator &&& c.m }
  c1.setNZ c1.accumulator

/-- ASL from instructions.go: Carry from bit 7 of M, then M shifted left by
two (as written in the source), setNZ; no writeback anywhere. -/
def Cpu.ASL (c : Cpu) : Cpu :=
  let c1 := { c with flags := { c.flags with carry := (c.m &&& 0x80) != 0 },
                     m := (c.m <<< 2) % 256 }
  c1.setNZ c1.m

/-- BCC from instructions.go. -/
def Cpu.BCC (c : Cpu) : Cpu := c.branch (!c.flags.carry)

/-- BCS from instructions.go. -/
def Cpu.BCS (c : Cpu) : Cpu := c.branch c.flags.carry

/-- BEQ from instructions.go. -/
def Cpu.BEQ (c : Cpu) : Cpu := c.branch c.flags.zero

/-- BIT from instructions.go (Zero from M and A being nonzero, as written in
the source). -/
def Cpu.BIT (c : Cpu) : Cpu :=
  { c with flags := { c.flags with
      zero := (c.m &&& c.accumulator) != 0,
      negative := (c.m &&& 0x80) != 0,
      overflow := (c.m &&& 0x40) != 0 } }

/-- BMI from instructions.go. -/
def Cpu.BMI (c : Cpu) : Cpu := c.branch c.flags.negative

/-- BNE from instructions.go. -/
def Cpu.BNE (c : Cpu) : Cpu := c.branch (!c.flags.zero)

/-- BPL from instructions.go. -/
def Cpu.BPL (c : Cpu) : Cpu := c.branch (!c.flags.negative)

/-- BRK from instructions.go: increment PC, then delegate to the nmi
handler. -/
def Cpu.BRK (c : Cpu) : Cpu :=
  Cpu.nmi { c with programCounter := (c.programCounter + 1) % 65536 }

/-- BVC from instructions.go. -/
def Cpu.BVC (c : Cpu) : Cpu := c.branch (!c.flags.overflow)

/-- BVS from instructions.go. -/
def Cpu.BVS (c : Cpu) : Cpu := c.branch c.flags.overflow

/-- CLC from instructions.go. -/
def Cpu.CLC (c : Cpu) : Cpu := { c with flags := { c.flags with carry := false } }

/-- CLD from instructions.go. -/
def Cpu.CLD (c : Cpu) : Cpu := { c with flags := { c.flags with decimal := false } }

/-- CLI from instructions.go. -/
def Cpu.CLI (c : Cpu) : Cpu := { c with flags := { c.flags with disableInterrupt := false } }

/-- CLV from instructions.go. -/
def Cpu.CLV (c : Cpu) : Cpu := { c with flags := { c.flags with overflow := false } }

/-- CMP from instructions.go: Carry from A at least M, Zero from A equal to
M, Negative from bit 7 of the wrapping difference A - M. -/
def Cpu.CMP (c : Cpu) : Cpu :=
  { c with flags := { c.flags with
      carry := decide (c.m ≤ c.accumulator),
      zero := c.accumulator == c.m,
      negative := (sub8 c.accumulator c.m &&& 0x80) != 0 } }

/-- CPX from instructions.go. -/
def Cpu.CPX (c : Cpu) : Cpu :=
  { c with flags := { c.flags with
      carry := decide (c.m ≤ c.x),
      zero := c.x == c.m,
      negative := (sub8 c.x c.m &&& 0x80) != 0 } }

/-- CPY from instructions.go. -/
def Cpu.CPY (c : Cpu) : Cpu :=
  { c with flags := { c.flags with
      carry := decide (c.m ≤ c.y),
      zero := c.y == c.m,
      negative := (sub8 c.y c.m &&& 0x80) != 0 } }

/-- DEC from instructions.go (decrements the latched M; no writeback). -/
def Cpu.DEC (c : Cpu) : Cpu :=
  let c1 := { c with m := sub8 c.m 1 }
  c1.setNZ c1.m

/-- DEX from instructions.go. -/
def Cpu.DEX (c : Cpu) : Cpu :=
  let c1 := { c with x := sub8 c.x 1 }
  c1.setNZ c1.x

/-- DEY from instructions.go. -/
def Cpu.DEY (c : Cpu) : Cpu :=
  let c1 := { c with y := sub8 c.y 1 }
  c1.setNZ c1.y

/-- EOR from instructions.go. -/
def Cpu.EOR (c : Cpu) : Cpu :=
  let c1 := { c with accumulator := c.accumulator ^^^ c.m }
  c1.setNZ c1.accumulator

/-- INC from instructions.go (increments the latched M; no writeback). -/
def Cpu.INC (c : Cpu) : Cpu :=
  let c1 := { c with m := (c.m + 1) % 256 }
  c1.setNZ c1.m

/-- INX from instructions.go. -/
def Cpu.INX (c : Cpu) : Cpu :=
  let c1 := { c with x := (c.x + 1) % 256 }
  c1.setNZ c1.x

/-- INY from instructions.go. -/
def Cpu.INY (c : Cpu) : Cpu :=
  let c1 := { c with y := (c.y + 1) % 256 }
  c1.setNZ c1.y

/-- JMP from instructions.go: PC receives the zero-extended operand byte
uint16(c.M), not the effective address. -/
def Cpu.JMP (c : Cpu) : Cpu := { c with programCounter := c.m % 256 }

/-- JSR from instructions.go: an empty stub in the source. -/
def Cpu.JSR (c : Cpu) : Cpu := c

/-- LDA from instructions.go. -/
def Cpu.LDA (c : Cpu) : Cpu :=
  let c1 := { c with accumulator := c.m }
  c1.setNZ c1.accumulator

/-- LDX from instructions.go. -/
def Cpu.LDX (c : Cpu) : Cpu :=
  let c1 := { c with x := c.m }
  c1.setNZ c1.x

/-- LDY from instructions.go. -/
def Cpu.LDY (c : Cpu) : Cpu :=
  let c1 := { c with y := c.m }
  c1.setNZ c1.y

/-- LSR from instructions.go: Carry from bit 0 of M, then M shifted right by
two (as written in the source), setNZ; no writeback. -/
def Cpu.LSR (c : Cpu) : Cpu :=
  let c1 := { c with flags := { c.flags with carry := (c.m &&& 0x01) != 0 },
                     m := c.m >>> 2 }
  c1.setNZ c1.m

/-- NOP from instructions.go. -/
def Cpu.NOP (c : Cpu) : Cpu := c

/-- ORA from instructions.go. -/
def Cpu.ORA (c : Cpu) : Cpu :=
  let c1 := { c with accumulator := c.accumulator ||| c.m }
  c1.setNZ c1.accumulator

/-- PHA from instructions.go: write A at 0x0100 or S, then decrement S. -/
def Cpu.PHA (c : Cpu) : Cpu :=
  let c1 := c.write (0x0100 ||| c.stack) c.accumulator
  { c1 with stack := sub8 c1.stack 1 }

/-- PHP from instructions.go: write the packed flags at 0x0100 or S, then
decrement S. -/
def Cpu.PHP (c : Cpu) : Cpu :=
  let c1 := c.write (0x0100 ||| c.stack) c.flagsByte
  { c1 with stack := sub8 c1.stack 1 }

/-- PLA from instructions.go: increment S, read A from 0x0100 or S, setNZ. -/
def Cpu.PLA (c : Cpu) : Cpu :=
  let s := (c.stack + 1) % 256
  let c1 := { c with stack := s, accumulator := c.read (0x0100 ||| s) }
  c1.setNZ c1.accumulator

/-- PLP from instructions.go: increment S, read the packed flags from
0x0100 or S and unpack every bit, including B and Unused, verbatim. -/
def Cpu.PLP (c : Cpu) : Cpu :=
  let s := (c.stack + 1) % 256
  let f := c.read (0x0100 ||| s)
  { c with stack := s, flags :=
    { carry := (f &&& 1) != 0,
      zero := (f &&& 2) != 0,
      disableInterrupt := (f &&& 4) != 0,
      decimal := (f &&& 8) != 0,
      b := (f &&& 16) != 0,
      unused := (f &&& 32) != 0,
      overflow := (f &&& 64) != 0,
      negative := (f &&& 128) != 0 } }

/-- ROL from instructions.go: Carry from bit 7, M shifted left by two (as
written in the source), bit 0 filled from the new Carry, setNZ; no
writeback. -/
def Cpu.ROL (c : Cpu) : Cpu :=
  let carry := (c.m &&& 0x80) != 0
  let m1 := (c.m <<< 2) % 256
  let m2 := if carry then m1 ||| 0x01 else m1
  let c1 := { c with flags := { c.flags with carry := carry }, m := m2 }
  c1.setNZ c1.m

/-- ROR from instructions.go: Carry from bit 0, M shifted right by two (as
written in the source), bit 7 filled from the new Carry, setNZ; no
writeback. -/
def Cpu.ROR (c : Cpu) : Cpu :=
  let carry := (c.m &&& 0x01) != 0
  let m1 := c.m >>> 2
  let m2 := if carry then m1 ||| 0x80 else m1
  let c1 := { c with flags := { c.flags with carry := carry }, m := m2 }
  c1.setNZ c1.m

/-- RTI from instructions.go: PLP, then pull the PC low and high bytes.
The two PC reads use the address uint16(c.Stack) with no 0x0100 offset,
exactly as in the source. -/
def Cpu.RTI (c : Cpu) : Cpu :=
  let c1 := c.PLP
  let s1 := (c1.stack + 1) % 256
  let col := c1.read s1
  let s2 := (s1 + 1) % 256
  let page := c1.read s2
  { c1 with stack := s2, programCounter := word page col }

/-- RTS from instructions.go: increment S, PC from the single byte read at
0x0100 or S, plus one. -/
def Cpu.RTS (c : Cpu) : Cpu :=
  let s := (c.stack + 1) % 256
  { c with stack := s, programCounter := c.read (0x0100 ||| s) + 1 }

/-- SBC from instructions.go: M set to M xor 0xFF, then ADC. -/
def Cpu.SBC (c : Cpu) : Cpu := Cpu.ADC { c with m := c.m ^^^ 0xff }

/-- SEC from instructions.go. -/
def Cpu.SEC (c : Cpu) : Cpu := { c with flags := { c.flags with carry := true } }

/-- SED from instructions.go. -/
def Cpu.SED (c : Cpu) : Cpu := { c with flags := { c.flags with decimal := true } }

/-- SEI from instructions.go. -/
def Cpu.SEI (c : Cpu) : Cpu := { c with flags := { c.flags with disableInterrupt := true } }

/-- STA from instructions.go: M from A, then write M at AbsAddress. -/
def Cpu.STA (c : Cpu) : Cpu :=
  let c1 := { c with m := c.accumulator }
  c1.write c1.absAddress c1.m

/-- STX from instructions.go. -/
def Cpu.STX (c : Cpu) : Cpu :=
  let c1 := { c with m := c.x }
  c1.write c1.absAddress c1.m

/-- STY from instructions.go. -/
def Cpu.STY (c : Cpu) : Cpu :=
  let c1 := { c with m := c.y }
  c1.write c1.absAddress c1.m

/-- TAX from instructions.go. -/
def Cpu.TAX (c : Cpu) : Cpu :=
  let c1 := { c with x := c.accumulator }
  c1.setNZ c1.x

/-- TAY from instructions.go. -/
def Cpu.TAY (c : Cpu) : Cpu :=
  let c1 := { c with y := c.accumulator }
  c1.setNZ c1.y

/-- TSX from instructions.go: written as a pull in the source (increment S,
read X from 0x0100 or S), setNZ. -/
def Cpu.TSX (c : Cpu) : Cpu :=
  let s := (c.stack + 1) % 256
  let c1 := { c with stack := s, x := c.read (0x0100 ||| s) }
  c1.setNZ c1.x

/-- TXA from instructions.go. -/
def Cpu.TXA (c : Cpu) : Cpu :=
  let c1 := { c with accumulator := c.x }
  c1.setNZ c1.accumulator

/-- TXS from instructions.go: written as a push in the source (write X at
0x0100 or S, decrement S). -/
def Cpu.TXS (c : Cpu) : Cpu :=
  let c1 := c.write (0x0100 ||| c.stack) c.x
  { c1 with stack := sub8 c1.stack 1 }

/-- TYA from instructions.go (setNZ applied to Y, as in the source). -/
def Cpu.TYA (c : Cpu) : Cpu :=
  let c1 := { c with accumulator := c.y }
  c1.setNZ c1.y

/-- The AddressingMode enumeration of cpu.go rev 2. -/
inductive AddressingMode
  | implied
  | accumulator
  | immediate
  | zeroPage
  | zeroPageX
  | zeroPageY
  | indirectX
  | indirectY
  | relative
  | absolute
  | absoluteX
  | absoluteY
  | indirect

/-- The final statement of decode for the modes past Accumulator: latch the
operand byte from the resolved AbsAddress into M. -/
def Cpu.fetchM (c : Cpu) : Cpu := { c with m := c.read c.absAddress }

/-- The decode switch of cpu.go rev 2, case by case. Implied and
Accumulator return early without the trailing operand fetch. AbsoluteX,
AbsoluteY and IndirectY increment Cycles directly on a page cross
(PageCrossed stays untouched in this revision); Relative performs no page
cross check. -/
def Cpu.decode (c : Cpu) (a : AddressingMode) : Cpu :=
  match a with
  | .implied => c
  | .accumulator => { c with m := c.accumulator }
  | .immediate =>
    Cpu.fetchM { c with absAddress := c.programCounter,
                        programCounter := (c.programCounter + 1) % 65536 }
  | .zeroPage =>
    let v := c.read c.programCounter
    Cpu.fetchM { c with absAddress := v &&& 0xff,
                        programCounter := (c.programCounter + 1) % 65536 }
  | .zeroPageX =>
    let v := (c.read c.programCounter + c.x) % 256
    Cpu.fetchM { c with absAddress := v &&& 0xff,
                        programCounter := (c.programCounter + 1) % 65536 }
  | .zeroPageY =>
    let v := (c.read c.programCounter + c.y) % 256
    Cpu.fetchM { c with absAddress := v &&& 0xff,
                        programCounter := (c.programCounter + 1) % 65536 }
  | .relative =>
    let rel := c.read c.programCounter
    let pc1 := (c.programCounter + 1) % 65536
    let addr := (pc1 + rel) % 65536
    let addr2 := if (rel &&& 0x80) != 0 then (addr + 65536 - 0x0100) % 65536 else addr
    Cpu.fetchM { c with absAddress := addr2, programCounter := pc1 }
  | .absolute =>
    let col := c.read c.programCounter
    let page := c.read ((c.programCounter + 1) % 65536)
    Cpu.fetchM { c with absAddress := word page col,
                        programCounter := (c.programCounter + 2) % 65536 }
  | .absoluteX =>
    let col := c.read c.programCounter
    let page := c.read ((c.programCounter + 1) % 65536)
    let addr := (word page col + c.x) % 65536
    let c1 := { c with absAddress := addr,
                       programCounter := (c.programCounter + 2) % 65536 }
    let c2 := if (addr &&& 0xff00) != (page <<< 8) then
                { c1 with cycles := (c1.cycles + 1) % 256 }
              else c1
    Cpu.fetchM c2
  | .absoluteY =>
    let col := c.read c.programCounter
    let page := c.read ((c.programCounter + 1) % 65536)
    let addr := (word page col + c.y) % 65536
    let c1 := { c with absAddress := addr,
                       programCounter := (c.programCounter + 2) % 65536 }
    let c2 := if (addr &&& 0xff00) != (page <<< 8) then
                { c1 with cycles := (c1.cycles + 1) % 256 }
              else c1
    Cpu.fetchM c2
  | .indirectX =>
    let ptr := c.read c.programCounter
    let page := c.read ((ptr + c.x) % 256)
    let col := c.read ((ptr + 1 + c.x) % 256)
    Cpu.fetchM { c with absAddress := word page col,
                        programCounter := (c.programCounter + 1) % 65536 }
  | .indirectY =>
    let ptr := c.read c.programCounter
    let page := c.read (ptr &&& 0xff)
    let col := c.read ((ptr + 1) % 256)
    let addr := (word page col + c.y) % 65536
    let c1 := { c with absAddress := addr,
                       programCounter := (c.programCounter + 1) % 65536 }
    let c2 := if (addr &&& 0xff00) != (page <<< 8) then
                { c1 with cycles := (c1.cycles + 1) % 256 }
              else c1
    Cpu.fetchM c2
  | .indirect =>
    let ptrCol := c.read c.programCounter
    let ptrPage := c.read ((c.programCounter + 1) % 65536)
    let ptr := word ptrPage ptrCol
    let realCol := c.read ptr
    let realPage := if ptrCol == 0xff then c.read (ptr &&& 0xff00)
                    else c.read ((ptr + 1) % 65536)
    Cpu.fetchM { c with absAddress := word realPage realCol,
                        programCounter := (c.programCounter + 2) % 65536 }

/-- The 56 instruction mnemonics, the tags dispatched by the opcode table. -/
inductive Instr
  | iADC | iAND | iASL | iBCC | iBCS | iBEQ | iBIT | iBMI | iBNE | iBPL
  | iBRK | iBVC | iBVS | iCLC | iCLD | iCLI | iCLV | iCMP | iCPX | iCPY
  | iDEC | iDEX | iDEY | iEOR | iINC | iINX | iINY | iJMP | iJSR | iLDA
  | iLDX | iLDY | iLSR | iNOP | iORA | iPHA | iPHP | iPLA | iPLP | iROL
  | iROR | iRTI | iRTS | iSBC | iSEC | iSED | iSEI | iSTA | iSTX | iSTY
  | iTAX | iTAY | iTSX | iTXA | iTXS | iTYA

/-- Dispatch from an instruction tag to the corresponding Cpu method,
standing for the function values stored in the Go Opcodes map. -/
def execute : Instr → Cpu → Cpu
  | .iADC => Cpu.ADC
  | .iAND => Cpu.AND
  | .iASL => Cpu.ASL
  | .iBCC => Cpu.BCC
  | .iBCS => Cpu.BCS
  | .iBEQ => Cpu.BEQ
  | .iBIT => Cpu.BIT
  | .iBMI => Cpu.BMI
  | .iBNE => Cpu.BNE
  | .iBPL => Cpu.BPL
  | .iBRK => Cpu.BRK
  | .iBVC => Cpu.BVC
  | .iBVS => Cpu.BVS
  | .iCLC => Cpu.CLC
  | .iCLD => Cpu.CLD
  | .iCLI => Cpu.CLI
  | .iCLV => Cpu.CLV
  | .iCMP => Cpu.CMP
  | .iCPX => Cpu.CPX
  | .iCPY => Cpu.CPY
  | .iDEC => Cpu.DEC
  | .iDEX => Cpu.DEX
  | .iDEY => Cpu.DEY
  | .iEOR => Cpu.EOR
  | .iINC => Cpu.INC
  | .iINX => Cpu.INX
  | .iINY => Cpu.INY
  | .iJMP => Cpu.JMP
  | .iJSR => Cpu.JSR
  | .iLDA => Cpu.LDA
  | .iLDX => Cpu.LDX
  | .iLDY => Cpu.LDY
  | .iLSR => Cpu.LSR
  | .iNOP => Cpu.NOP
  | .iORA => Cpu.ORA
  | .iPHA => Cpu.PHA
  | .iPHP => Cpu.PHP
  | .iPLA => Cpu.PLA
  | .iPLP => Cpu.PLP
  | .iROL => Cpu.ROL
  | .iROR => Cpu.ROR
  | .iRTI => Cpu.RTI
  | .iRTS => Cpu.RTS
  | .iSBC => Cpu.SBC
  | .iSEC => Cpu.SEC
  | .iSED => Cpu.SED
  | .iSEI => Cpu.SEI
  | .iSTA => Cpu.STA
  | .iSTX => Cpu.STX
  | .iSTY => Cpu.STY
  | .iTAX => Cpu.TAX
  | .iTAY => Cpu.TAY
  | .iTSX => Cpu.TSX
  | .iTXA => Cpu.TXA
  | .iTXS => Cpu.TXS
  | .iTYA => Cpu.TYA

/-- One entry of the Opcodes map: addressing mode, base cycles, dispatched
instruction and display name. -/
structure Opcode where
  addressingMode : AddressingMode
  cycles : Nat
  instruction : Instr
  name : String

/-- The Opcodes map of the opcode table file: every legal byte paired with
its entry; bytes outside the map give none (the map lookup reporting the
key as absent). -/
def Opcodes : Nat → Option Opcode := fun b =>
  match b with
  | 0x69 => some ⟨.immediate, 2, .iADC, "ADC"⟩
  | 0x65 => some ⟨.zeroPage, 3, .iADC, "ADC"⟩
  | 0x75 => some ⟨.zeroPageX, 4, .iADC, "ADC"⟩
  | 0x6D => some ⟨.absolute, 4, .iADC, "ADC"⟩
  | 0x7D => some ⟨.absoluteX, 4, .iADC, "ADC"⟩
  | 0x79 => some ⟨.absoluteY, 4, .iADC, "ADC"⟩
  | 0x61 => some ⟨.indirectX, 6, .iADC, "ADC"⟩
  | 0x71 => some ⟨.indirectY, 5, .iADC, "ADC"⟩
  | 0x29 => some ⟨.immediate, 2, .iAND, "AND"⟩
  | 0x25 => some ⟨.zeroPage, 3, .iAND, "AND"⟩
  | 0x35 => some ⟨.zeroPageX, 4, .iAND, "AND"⟩
  | 0x2D => some ⟨.absolute, 4, .iAND, "AND"⟩
  | 0x3D => some ⟨.absoluteX, 4, .iAND, "AND"⟩
  | 0x39 => some ⟨.absoluteY, 4, .iAND, "AND"⟩
  | 0x21 => some ⟨.indirectX, 6, .iAND, "AND"⟩
  | 0x31 => some ⟨.indirectY, 5, .iAND, "AND"⟩
  | 0x0A => some ⟨.accumulator, 2, .iASL, "ASL"⟩
  | 0x06 => some ⟨.zeroPage, 5, .iASL, "ASL"⟩
  | 0x16 => some ⟨.zeroPageX, 6, .iASL, "ASL"⟩
  | 0x0E => some ⟨.absolute, 6, .iASL, "ASL"⟩
  | 0x1E => some ⟨.absoluteX, 7, .iASL, "ASL"⟩
  | 0x24 => some ⟨.zeroPage, 3, .iBIT, "BIT"⟩
  | 0x2C => some ⟨.absolute, 4, .iBIT, "BIT"⟩
  | 0x00 => some ⟨.implied, 7, .iBRK, "BRK"⟩
  | 0xC9 => some ⟨.immediate, 2, .iCMP, "CMP"⟩
  | 0xC5 => some ⟨.zeroPage, 3, .iCMP, "CMP"⟩
  | 0xD5 => some ⟨.zeroPageX, 4, .iCMP, "CMP"⟩
  | 0xCD => some ⟨.absolute, 4, .iCMP, "CMP"⟩
  | 0xDD => some ⟨.absoluteX, 4, .iCMP, "CMP"⟩
  | 0xD9 => some ⟨.absoluteY, 4, .iCMP, "CMP"⟩
  | 0xC1 => some ⟨.indirectX, 6, .iCMP, "CMP"⟩
  | 0xD1 => some ⟨.indirectY, 5, .iCMP, "CMP"⟩
  | 0xE0 => some ⟨.immediate, 2, .iCPX, "CPX"⟩
  | 0xE4 => some ⟨.zeroPage, 3, .iCPX, "CPX"⟩
  | 0xEC => some ⟨.absolute, 4, .iCPX, "CPX"⟩
  | 0xC0 => some ⟨.immediate, 2, .iCPY, "CPY"⟩
  | 0xC4 => some ⟨.zeroPage, 3, .iCPY, "CPY"⟩
  | 0xCC => some ⟨.absolute, 4, .iCPY, "CPY"⟩
  | 0xC6 => some ⟨.zeroPage, 5, .iDEC, "DEC"⟩
  | 0xD6 => some ⟨.zeroPageX, 6, .iDEC, "DEC"⟩
  | 0xCE => some ⟨.absolute, 6, .iDEC, "DEC"⟩
  | 0xDE => some ⟨.absoluteX, 7, .iDEC, "DEC"⟩
  | 0x49 => some ⟨.immediate, 2, .iEOR, "EOR"⟩
  | 0x45 => some ⟨.zeroPage, 3, .iEOR, "EOR"⟩
  | 0x55 => some ⟨.zeroPageX, 4, .iEOR, "EOR"⟩
  | 0x4D => some ⟨.absolute, 4, .iEOR, "EOR"⟩
  | 0x5D => some ⟨.absoluteX, 4, .iEOR, "EOR"⟩
  | 0x59 => some ⟨.absoluteY, 4, .iEOR, "EOR"⟩
  | 0x41 => some ⟨.indirectX, 6, .iEOR, "EOR"⟩
  | 0x51 => some ⟨.indirectY, 5, .iEOR, "EOR"⟩
  | 0xE6 => some ⟨.zeroPage, 5, .iINC, "INC"⟩
  | 0xF6 => some ⟨.zeroPageX, 6, .iINC, "INC"⟩
  | 0xEE => some ⟨.absolute, 6, .iINC, "INC"⟩
  | 0xFE => some ⟨.absoluteX, 7, .iINC, "INC"⟩
  | 0x4C => some ⟨.absolute, 3, .iJMP, "JMP"⟩
  | 0x6C => some ⟨.indirect, 5, .iJMP, "JMP"⟩
  | 0x20 => some ⟨.absolute, 6, .iJSR, "JSR"⟩
  | 0xA9 => some ⟨.immediate, 2, .iLDA, "LDA"⟩
  | 0xA5 => some ⟨.zeroPage, 3, .iLDA, "LDA"⟩
  | 0xB5 => some ⟨.zeroPageX, 4, .iLDA, "LDA"⟩
  | 0xAD => some ⟨.absolute, 4, .iLDA, "LDA"⟩
  | 0xBD => some ⟨.absoluteX, 4, .iLDA, "LDA"⟩
  | 0xB9 => some ⟨.absoluteY, 4, .iLDA, "LDA"⟩
  | 0xA1 => some ⟨.indirectX, 6, .iLDA, "LDA"⟩
  | 0xB1 => some ⟨.indirectY, 5, .iLDA, "LDA"⟩
  | 0xA2 => some ⟨.immediate, 2, .iLDX, "LDX"⟩
  | 0xA6 => some ⟨.zeroPage, 3, .iLDX, "LDX"⟩
  | 0xB6 => some ⟨.zeroPageY, 4, .iLDX, "LDX"⟩
  | 0xAE => some ⟨.absolute, 4, .iLDX, "LDX"⟩
  | 0xBE => some ⟨.absoluteY, 4, .iLDX, "LDX"⟩
  | 0xA0 => some ⟨.immediate, 2, .iLDY, "LDY"⟩
  | 0xA4 => some ⟨.zeroPage, 3, .iLDY, "LDY"⟩
  | 0xB4 => some ⟨.zeroPageX, 4, .iLDY, "LDY"⟩
  | 0xAC => some ⟨.absolute, 4, .iLDY, "LDY"⟩
  | 0xBC => some ⟨.absoluteX, 4, .iLDY, "LDY"⟩
  | 0x4A => some ⟨.accumulator, 2, .iLSR, "LSR"⟩
  | 0x46 => some ⟨.zeroPage, 5, .iLSR, "LSR"⟩
  | 0x56 => some ⟨.zeroPageX, 6, .iLSR, "LSR"⟩
  | 0x4E => some ⟨.absolute, 6, .iLSR, "LSR"⟩
  | 0x5E => some ⟨.absoluteX, 7, .iLSR, "LSR"⟩
  | 0xEA => some ⟨.implied, 2, .iNOP, "NOP"⟩
  | 0x09 => some ⟨.immediate, 2, .iORA, "ORA"⟩
  | 0x05 => some ⟨.zeroPage, 3, .iORA, "ORA"⟩
  | 0x15 => some ⟨.zeroPageX, 4, .iORA, "ORA"⟩
  | 0x0D => some ⟨.absolute, 4, .iORA, "ORA"⟩
  | 0x1D => some ⟨.absoluteX, 4, .iORA, "ORA"⟩
  | 0x19 => some ⟨.absoluteY, 4, .iORA, "ORA"⟩
  | 0x01 => some ⟨.indirectX, 6, .iORA, "ORA"⟩
  | 0x11 => some ⟨.indirectY, 5, .iORA, "ORA"⟩
  | 0x2A => some ⟨.accumulator, 2, .iROL, "ROL"⟩
  | 0x26 => some ⟨.zeroPage, 5, .iROL, "ROL"⟩
  | 0x36 => some ⟨.zeroPageX, 6, .iROL, "ROL"⟩
  | 0x2E => some ⟨.absolute, 6, .iROL, "ROL"⟩
  | 0x3E => some ⟨.absoluteX, 7, .iROL, "ROL"⟩
  | 0x6A => some ⟨.accumulator, 2, .iROR, "ROR"⟩
  | 0x66 => some ⟨.zeroPage, 5, .iROR, "ROR"⟩
  | 0x76 => some ⟨.zeroPageX, 6, .iROR, "ROR"⟩
  | 0x6E => some ⟨.absolute, 6, .iROR, "ROR"⟩
  | 0x7E => some ⟨.absoluteX, 7, .iROR, "ROR"⟩
  | 0x40 => some ⟨.implied, 6, .iRTI, "RTI"⟩
  | 0x60 => some ⟨.implied, 6, .iRTS, "RTS"⟩
  | 0xE9 => some ⟨.immediate, 2, .iSBC, "SBC"⟩
  | 0xE5 => some ⟨.zeroPage, 3, .iSBC, "SBC"⟩
  | 0xF5 => some ⟨.zeroPageX, 4, .iSBC, "SBC"⟩
  | 0xED => some ⟨.absolute, 4, .iSBC, "SBC"⟩
  | 0xFD => some ⟨.absoluteX, 4, .iSBC, "SBC"⟩
  | 0xF9 => some ⟨.absoluteY, 4, .iSBC, "SBC"⟩
  | 0xE1 => some ⟨.indirectX, 6, .iSBC, "SBC"⟩
  | 0xF1 => some ⟨.indirectY, 5, .iSBC, "SBC"⟩
  | 0x85 => some ⟨.zeroPage, 3, .iSTA, "STA"⟩
  | 0x95 => some ⟨.zeroPageX, 4, .iSTA, "STA"⟩
  | 0x8D => some ⟨.absolute, 4, .iSTA, "STA"⟩
  | 0x9D => some ⟨.absoluteX, 5, .iSTA, "STA"⟩
  | 0x99 => some ⟨.absoluteY, 5, .iSTA, "STA"⟩
  | 0x81 => some ⟨.indirectX, 6, .iSTA, "STA"⟩
  | 0x91 => some ⟨.indirectY, 6, .iSTA, "STA"⟩
  | 0x86 => some ⟨.zeroPage, 3, .iSTX, "STX"⟩
  | 0x96 => some ⟨.zeroPageY, 4, .iSTX, "STX"⟩
  | 0x8E => some ⟨.absolute, 4, .iSTX, "STX"⟩
  | 0x84 => some ⟨.zeroPage, 3, .iSTY, "STY"⟩
  | 0x94 => some ⟨.zeroPageX, 4, .iSTY, "STY"⟩
  | 0x8C => some ⟨.absolute, 4, .iSTY, "STY"⟩
  | 0x18 => some ⟨.implied, 2, .iCLC, "CLC"⟩
  | 0x38 => some ⟨.implied, 2, .iSEC, "SEC"⟩
  | 0x58 => some ⟨.implied, 2, .iCLI, "CLI"⟩
  | 0x78 => some ⟨.implied, 2, .iSEI, "SEI"⟩
  | 0xB8 => some ⟨.implied, 2, .iCLV, "CLV"⟩
  | 0xD8 => some ⟨.implied, 2, .iCLD, "CLD"⟩
  | 0xF8 => some ⟨.implied, 2, .iSED, "SED"⟩
  | 0xAA => some ⟨.implied, 2, .iTAX, "TAX"⟩
  | 0x8A => some ⟨.implied, 2, .iTXA, "TXA"⟩
  | 0xCA => some ⟨.implied, 2, .iDEX, "DEX"⟩
  | 0xE8 => some ⟨.implied, 2, .iINX, "INX"⟩
  | 0xA8 => some ⟨.implied, 2, .iTAY, "TAY"⟩
  | 0x98 => some ⟨.implied, 2, .iTYA, "TYA"⟩
  | 0x88 => some ⟨.implied, 2, .iDEY, "DEY"⟩
  | 0xC8 => some ⟨.implied, 2, .iINY, "INY"⟩
  | 0x10 => some ⟨.relative, 2, .iBPL, "BPL"⟩
  | 0x30 => some ⟨.relative, 2, .iBMI, "BMI"⟩
  | 0x50 => some ⟨.relative, 2, .iBVC, "BVC"⟩
  | 0x70 => some ⟨.relative, 2, .iBVS, "BVS"⟩
  | 0x90 => some ⟨.relative, 2, .iBCC, "BCC"⟩
  | 0xB0 => some ⟨.relative, 2, .iBCS, "BCS"⟩
  | 0xD0 => some ⟨.relative, 2, .iBNE, "BNE"⟩
  | 0xF0 => some ⟨.relative, 2, .iBEQ, "BEQ"⟩
  | 0x9A => some ⟨.implied, 2, .iTXS, "TXS"⟩
  | 0xBA => some ⟨.implied, 2, .iTSX, "TSX"⟩
  | 0x48 => some ⟨.implied, 3, .iPHA, "PHA"⟩
  | 0x68 => some ⟨.implied, 4, .iPLA, "PLA"⟩
  | 0x08 => some ⟨.implied, 3, .iPHP, "PHP"⟩
  | 0x28 => some ⟨.implied, 4, .iPLP, "PLP"⟩
  | _ => none

/-- The tick step of cpu.go rev 2. The opcode byte is read at PC; an absent
map key makes tick return the error (modelled as the offending byte) with
the Cpu untouched, before the PC increment. Otherwise PC advances past the
opcode, decode runs, the instruction runs, Cycles is assigned the base
cycle count of the entry, and a still-set PageCrossed adds one cycle and is
cleared. -/
def Cpu.tick (c : Cpu) : Cpu × Option Nat :=
  let b := c.read c.programCounter
  match Opcodes b with
  | none => (c, some b)
  | some op =>
    let c1 := { c with programCounter := (c.programCounter + 1) % 65536 }
    let c2 := c1.decode op.addressingMode
    let c3 := execute op.instruction c2
    let c4 := { c3 with cycles := op.cycles }
    let c5 := if c4.pageCrossed then
                { c4 with cycles := (c4.cycles + 1) % 256, pageCrossed := false }
              else c4
    (c5, none)

/-- A byte store built from an association list of address and value pairs;
absent addresses hold 0, matching the zeroed FakeRam. -/
def ramOf (l : List (Nat × Nat)) : Nat → Nat :=
  fun a => (((l.find? (fun p => p.1 == a)).map Prod.snd).getD 0)

/-- All eight flags clear. -/
def flags0 : Flags :=
  { negative := false, overflow := false, unused := false,
    disableInterrupt := false, zero := false, carry := false,
    b := false, decimal := false }

/-- A baseline Cpu over zeroed memory. -/
def cpu0 : Cpu :=
  { ram := fun _ => 0, flags := flags0, accumulator := 0, x := 0, y := 0,
    stack := 0xfd, programCounter := 0, m := 0, absAddress := 0,
    pageCrossed := false, cycles := 0 }

/-- The C1 scenario of the spec: A = 0xFF, operand M = 0x01, Carry clear. -/
def cpuC1 : Cpu := { cpu0 with accumulator := 0xff, m := 0x01 }

/-- A zeroed Bus. -/
def bus0 : Bus := fun _ => 0

/-- The C3 scenario: RTI with S = 0xFC; page 1 holds the pushed frame
(flags 0x00 at 0x01FD, return PC 0x5678 at 0x01FE/0x01FF) while page 0
holds distinct bytes 0x34/0x12 at 0x00FE/0x00FF. -/
def cpuC3 : Cpu :=
  { cpu0 with stack := 0xfc,
              ram := ramOf [(0x01fd, 0x00), (0x01fe, 0x78), (0x01ff, 0x56),
                            (0x00fe, 0x34), (0x00ff, 0x12)] }

/-- The C4 scenario of the spec: JMP ($02FF) at 0x8000 with the pointer
bytes 0x34 at 0x02FF, 0x12 at 0x0200 and 0xAB at 0x0300. -/
def cpuC4 : Cpu :=
  { cpu0 with programCounter := 0x8000,
              ram := ramOf [(0x8000, 0x6c), (0x8001, 0xff), (0x8002, 0x02),
                            (0x02ff, 0x34), (0x0200, 0x12), (0x0300, 0xab)] }

/-- The C5 scenario: BRK (opcode 0x00, held by the zeroed memory) at
PC = 0x8000 with S = 0xFD, all flags clear, the NMI vector pointing at
0x9000 and the IRQ/BRK vector pointing at 0xA000. -/
def cpuC5 : Cpu :=
  { cpu0 with programCounter := 0x8000,
              ram := ramOf [(0xfffa, 0x00), (0xfffb, 0x90),
                            (0xfffe, 0x00), (0xffff, 0xa0)] }

/-- The C6 scenario: a taken BNE (Zero clear) at 0x8000 with offset +0x10,
whose target 0x8012 shares the page of the fall-through PC 0x8002. -/
def cpuC6 : Cpu :=
  { cpu0 with programCounter := 0x8000,
              ram := ramOf [(0x8000, 0xd0), (0x8001, 0x10)] }

/-- The C7 scenario: ASL in Accumulator mode with A = 0x01, after decode
has latched M from A. -/
def cpuC7 : Cpu := Cpu.decode { cpu0 with accumulator := 0x01 } .accumulator

/-- The C8 scenario: RESET with the vector at 0xFFFC/0xFFFD pointing to
0xC000, from a scrambled prior state. -/
def cpuC8 : Cpu :=
  { cpu0 with accumulator := 0x12, x := 0x34, y := 0x56, stack := 0x00,
              programCounter := 0x4444, cycles := 3,
              flags := { flags0 with carry := true, negative := true },
              ram := ramOf [(0xfffc, 0x00), (0xfffd, 0xc0)] }

/-- The C9 witness scenario: memory holding 0x02 everywhere, a byte absent
from the opcode table. -/
def cpuC9 : Cpu := { cpu0 with ram := fun _ => 0x02 }

/-- C1: the claimed ADC postcondition fails on the source. On the claimed
concrete input A = 0xFF, M = 0x01, C = 0 the source ADC leaves A = 0x01
with Z clear (the freshly set Carry is folded back into A), where the claim
demands A = (0xFF + 0x01 + 0) mod 256 = 0x00 with Z set. Carry, N and V do
match on this input. -/
theorem adc_carry_bug : (cpuC1.ADC).accumulator = 0x01 ∧
    (cpuC1.ADC).flags.zero = false ∧
    (cpuC1.ADC).flags.carry = true ∧ (cpuC1.ADC).flags.negative = false ∧
    (cpuC1.ADC).flags.overflow = false := by decide

/-- C2: the Bus write and read round trip fails. Bus.Write is declared with
a value receiver, so the assignment lands in a discarded copy of the Bus:
after Write(0, 10) on a zeroed Bus, Read(0) still returns 0, not 10. The
second conjunct shows the method body itself does store 10 into its
receiver copy. -/
theorem bus_write_lost : Bus.read (Bus.write bus0 0 10) 0 true = 0 ∧
    Bus.read (Bus.writeBody bus0 0 10) 0 true = 10 := ⟨rfl, rfl⟩

/-- C3: the stack-region invariant fails on RTI. From S = 0xFC, RTI pulls
the flags from 0x01FD but then pulls the PC bytes from 0x00FE and 0x00FF
(the addresses uint16(S) with no 0x0100 offset): PC becomes 0x1234, built
from the page 0 bytes, not 0x5678 from the 0x01FE/0x01FF stack bytes. -/
theorem rti_stack_page_bug : (cpuC3.RTI).programCounter = 0x1234 ∧
    (cpuC3.RTI).stack = 0xff := by decide

/-- C4: the JMP postcondition fails. On the claimed scenario the decoder
resolves the effective address 0x1234 (the page-wrap bug is honored), but
the JMP instruction then assigns PC the zero-extended operand byte
bus[0x1234] = 0x00 rather than the effective address 0x1234. -/
theorem jmp_operand_bug : (cpuC4.tick).2 = none ∧
    (cpuC4.tick).1.absAddress = 0x1234 ∧
    (cpuC4.tick).1.programCounter = 0x0000 := by decide

/-- C5: the BRK postcondition fails. BRK delegates to the nmi handler: the
PC + 1 pushes (high 0x80 then low 0x02 of 0x8002) and the I flag do match
the claim, but the pushed status byte is 0x24 (B = 0, U = 1, I = 1) where
the claim demands B = 1, and PC is loaded from the NMI vector 0xFFFA
(giving 0x9000) instead of the claimed 0xFFFE/0xFFFF (0xA000). -/
theorem brk_via_nmi_bug : (cpuC5.tick).1.programCounter = 0x9000 ∧
    (cpuC5.tick).1.ram 0x01fb = 0x24 ∧
    (cpuC5.tick).1.ram 0x01fd = 0x80 ∧
    (cpuC5.tick).1.ram 0x01fc = 0x02 ∧
    (cpuC5.tick).1.stack = 0xfa ∧
    (cpuC5.tick).1.flags.disableInterrupt = true := by decide

/-- C6: branch timing fails for taken branches. The branch helper does
increment Cycles on a taken branch, but tick then assigns Cycles the base
count of the entry, erasing the increment (and decode of the Relative mode
never records a page cross): a taken, non-crossing BNE ends the step with
2 pending cycles where the claim demands 3. -/
theorem branch_timing_bug : (cpuC6.tick).2 = none ∧
    (cpuC6.tick).1.programCounter = 0x8012 ∧
    (cpuC6.tick).1.cycles = 2 := by decide

/-- C7: the ASL postcondition fails. With the Accumulator mode operand
v = A = 0x01, the source shifts the latched M by two bit positions to
0x04 (the claim demands 0x02) and stores the result neither to A (still
0x01) nor to memory. Carry correctly receives bit 7 of v. -/
theorem asl_shift_bug : (cpuC7.ASL).m = 0x04 ∧
    (cpuC7.ASL).accumulator = 0x01 ∧
    (cpuC7.ASL).flags.carry = false := by decide

/-- C8: the RESET postcondition fails on the I flag only. With the vector
pointing to 0xC000, reset gives A = X = Y = 0, S = 0xFD, PC = 0xC000,
8 pending cycles and U = 1 as claimed, but clears DisableInterrupt where
the claim demands I = 1. -/
theorem reset_i_flag_bug : (cpuC8.reset).accumulator = 0 ∧
    (cpuC8.reset).x = 0 ∧
    (cpuC8.reset).y = 0 ∧ (cpuC8.reset).stack = 0xfd ∧
    (cpuC8.reset).programCounter = 0xc000 ∧ (cpuC8.reset).cycles = 8 ∧
    (cpuC8.reset).flags.unused = true ∧
    (cpuC8.reset).flags.disableInterrupt = false := by decide

/-- C9: illegal-opcode error atomicity holds. Whenever the byte at PC is
not a key of the opcode table, tick returns that byte as the error and the
whole Cpu state, registers, flags and memory alike, is returned exactly as
it was: the PC increment and all other mutation sit after the table
lookup. -/
theorem tick_illegal_opcode (c : Cpu)
    (h : Opcodes (c.read c.programCounter) = none) :
    c.tick = (c, some (c.read c.programCounter)) := by
  unfold Cpu.tick
  simp only [h]

/-- Witness for C9: the byte 0x02 is absent from the opcode table, and a
tick from a state reading 0x02 at PC returns the state unchanged together
with the error byte. -/
theorem tick_illegal_opcode_witness :
    Opcodes (cpuC9.read cpuC9.programCounter) = none ∧
    cpuC9.tick = (cpuC9, some (cpuC9.read cpuC9.programCounter)) :=
  ⟨rfl, tick_illegal_opcode cpuC9 rfl⟩

/-- C10: the CMP frame property holds. For every Cpu state, the CMP
semantics leaves the registers A, X, Y, S and PC, the memory, the latched
operand and decode outputs, the cycle counter, and the five flags other
than Carry, Zero and Negative exactly unchanged. -/
theorem cmp_frame (c : Cpu) :
    (c.CMP).accumulator = c.accumulator ∧ (c.CMP).x = c.x ∧
    (c.CMP).y = c.y ∧ (c.CMP).stack = c.stack ∧
    (c.CMP).programCounter = c.programCounter ∧ (c.CMP).ram = c.ram ∧
    (c.CMP).flags.overflow = c.flags.overflow ∧
    (c.CMP).flags.disableInterrupt = c.flags.disableInterrupt ∧
    (c.CMP).flags.decimal = c.flags.decimal ∧
    (c.CMP).flags.b = c.flags.b ∧
    (c.CMP).flags.unused = c.flags.unused ∧
    (c.CMP).m = c.m ∧ (c.CMP).absAddress = c.absAddress ∧
    (c.CMP).pageCrossed = c.pageCrossed ∧ (c.CMP).cycles = c.cycles :=
  ⟨rfl, rfl, rfl, rfl, rfl, rfl, rfl, rfl, rfl, rfl, rfl, rfl, rfl, rfl, rfl⟩

/-- Witness for C10 at the baseline state. -/
theorem cmp_frame_witness :
    (cpu0.CMP).accumulator = cpu0.accumulator ∧ (cpu0.CMP).x = cpu0.x ∧
    (cpu0.CMP).y = cpu0.y ∧ (cpu0.CMP).stack = cpu0.stack ∧
    (cpu0.CMP).programCounter = cpu0.programCounter ∧
    (cpu0.CMP).ram = cpu0.ram ∧
    (cpu0.CMP).flags.overflow = cpu0.flags.overflow ∧
    (cpu0.CMP).flags.disableInterrupt = cpu0.flags.disableInterrupt ∧
    (cpu0.CMP).flags.decimal = cpu0.flags.decimal ∧
    (cpu0.CMP).flags.b = cpu0.flags.b ∧
    (cpu0.CMP).flags.unused = cpu0.flags.unused ∧
    (cpu0.CMP).m = cpu0.m ∧ (cpu0.CMP).absAddress = cpu0.absAddress ∧
    (cpu0.CMP).pageCrossed = cpu0.pageCrossed ∧
    (cpu0.CMP).cycles = cpu0.cycles :=
  cmp_frame cpu0

end Gone
